import Mathlib

/-!
Verification of the perplexity-cli client (src/perplexity.py).

The Python module is shallowly embedded: the process environment is passed
as an explicit `Option String` (the value of PERPLEXITY_API_KEY, `none` when
unset), the network collaborator as a function from the outbound request to
an outcome, and each `print` call as one element of a `List String`.
Exceptions (`KeyError`, `IndexError`, the two domain exceptions, and faults
raised by `requests.post`) are explicit `PyError` values.

A central point of the embedding: in `Perplexity.__init__` the line
`self.setup = ApiConfig` binds the *class object* (no parentheses), so every
field assignment `self.setup.x = ...` mutates class-level attributes shared
by all `Perplexity` instances.  The embedding therefore threads that shared
class-attribute store (`ApiConfigState`) through `Perplexity.init` explicitly:
the function receives the current store and returns the updated one.
-/

namespace PerplexityCli

/-- `AVAILABLE_MODELS` from src/perplexity.py. -/
def AVAILABLE_MODELS : List String :=
  ["sonar-reasoning-pro", "sonar-reasoning", "sonar-pro", "sonar"]

/-- Exceptions raised by the Python code, plus the fault raised by the
`requests` collaborator on a transport failure. -/
inductive PyError where
  | apiKeyNotFound
  | invalidSelectedModel (msg : String)
  | keyError (key : String)
  | indexError
  | transportError
  deriving DecidableEq

/-- The `display` helper (lines 28-52): returns the single line printed,
including the ANSI escape decoration.  The two colour tables are the dict
literals of the source; every call site uses a key present in the tables,
so the `getD ""` default is never exercised by the embedded code paths. -/
def display (message : String) (color : String) (bold : Bool) (bg_color : String) : String :=
  let colors : List (String × String) :=
    [("red", "91m"), ("green", "92m"), ("yellow", "93m"), ("blue", "94m"), ("white", "97m")]
  let bg_colors : List (String × String) :=
    [("black", "40"), ("red", "41"), ("green", "42"), ("yellow", "43"), ("blue", "44"), ("white", "47")]
  let c := (colors.lookup color).getD ""
  let b := (bg_colors.lookup bg_color).getD ""
  if bold then
    "\x1b[1;" ++ b ++ ";" ++ c ++ " " ++ message ++ "\x1b[0m"
  else
    "\x1b[" ++ b ++ ";" ++ c ++ " " ++ message ++ "\x1b[0m"

/-- The class-attribute store of the `ApiConfig` dataclass.  `frozen=True`
protects instances, but the orchestrator never instantiates the class: it
assigns the class object itself and mutates its class attributes. -/
structure ApiConfigState where
  api_url : String
  api_key : Option String
  usage : Bool
  citations : Bool
  model : Option String
  deriving DecidableEq

/-- The class attributes as declared (field defaults of `ApiConfig`),
i.e. the store at process start. -/
def ApiConfigState.initial : ApiConfigState :=
  { api_url := "https://api.perplexity.ai/chat/completions"
  , api_key := none
  , usage := false
  , citations := false
  , model := none }

/-- Parsed CLI arguments (the argparse namespace consumed by the client).
`api_key` is `none` when the `-a` flag is not given; `model` defaults to
"sonar-pro" at the parser. -/
structure Args where
  query : String
  verbose : Bool
  usage : Bool
  citations : Bool
  glow : Bool
  api_key : Option String
  model : String
  deriving DecidableEq

/-- `ModelValidator.validate` (lines 65-67). -/
def ModelValidator.validate (model : String) : Bool :=
  AVAILABLE_MODELS.contains model

/-- `ModelValidator.get_AVAILABLE_MODELS` (lines 69-71). -/
def ModelValidator.get_AVAILABLE_MODELS : List String :=
  AVAILABLE_MODELS

/-- `ApiKeyValidator.get_api_key_from_system` (lines 75-77):
`os.environ.get` returns the variable's value, or `None` when unset. -/
def ApiKeyValidator.get_api_key_from_system (env : Option String) : Option String :=
  env

/-- Python truthiness of an `Optional[str]`: `None` and `""` are falsy. -/
def pyTruthy : Option String → Bool
  | none => false
  | some s => s ≠ ""

/-- Python `str()` of an `Optional[str]` as interpolated by an f-string. -/
def pyStrOpt : Option String → String
  | none => "None"
  | some s => s

/-- Python `repr` of a list of strings, as produced by an f-string over
`list[str]`: comma-space separated single-quoted items in brackets. -/
def pyListRepr (l : List String) : String :=
  "[" ++ String.intercalate ", " (l.map (fun s => "\x27" ++ s ++ "\x27")) ++ "]"

deriving instance DecidableEq for Except

/-- Result of running `Perplexity.__init__`: the class-attribute store after
the constructor (mutations performed before an exception are kept, exactly as
in Python), the lines printed, and either the raised exception or the
instance attribute `use_glow`. -/
structure InitResult where
  state : ApiConfigState
  printed : List String
  outcome : Except PyError Bool
  deriving DecidableEq

/-- `Perplexity.__init__` (lines 81-102).  `cls` is the shared class
attribute store bound by `self.setup = ApiConfig`; `env` is the value of
PERPLEXITY_API_KEY.  Note the order of the source: the model is validated
first (no mutation yet), then `model`, `usage`, `citations` are written, and
only then the credential is resolved — `if not args.api_key` falls back to
the environment also for an empty-string override, and only an environment
value of `None` (not an empty string) raises `ApiKeyNotFoundException`,
after printing one line via `display`. -/
def Perplexity.init (cls : ApiConfigState) (args : Args) (env : Option String) : InitResult :=
  if ModelValidator.validate args.model = false then
    { state := cls
    , printed := []
    , outcome := .error (.invalidSelectedModel
        ("Invalid model: " ++ args.model ++ "\n" ++
         "Available models: " ++ pyListRepr ModelValidator.get_AVAILABLE_MODELS)) }
  else
    let cls := { cls with model := some args.model, usage := args.usage, citations := args.citations }
    if pyTruthy args.api_key = false then
      match ApiKeyValidator.get_api_key_from_system env with
      | none =>
        { state := cls
        , printed := [display "Api key not found on system! " "red" false "black"]
        , outcome := .error .apiKeyNotFound }
      | some api_key =>
        { state := { cls with api_key := some api_key }
        , printed := []
        , outcome := .ok args.glow }
    else
      { state := { cls with api_key := args.api_key }
      , printed := []
      , outcome := .ok args.glow }

/-- The outbound HTTP request assembled by `get_response` (lines 105-117):
headers in source order, and the JSON body's `model` field and `messages`
sequence as (role, content) pairs in order. -/
structure OutboundRequest where
  url : String
  headers : List (String × String)
  model : Option String
  messages : List (String × String)
  deriving DecidableEq

/-- Request construction portion of `Perplexity.get_response` (lines 105-117). -/
def Perplexity.buildRequest (setup : ApiConfigState) (message : String) : OutboundRequest :=
  { url := setup.api_url
  , headers :=
      [ ("accept", "application/json")
      , ("content-type", "application/json")
      , ("Authorization", "Bearer " ++ pyStrOpt setup.api_key) ]
  , model := setup.model
  , messages :=
      [ ("system", "Be precise and concise.")
      , ("user", message) ] }

/-- A choice's `message.content` in the response JSON. -/
structure Message where
  content : String
  deriving DecidableEq

/-- One element of the response's `choices` array. -/
structure Choice where
  message : Message
  deriving DecidableEq

/-- The JSON payload of a response: the three keys the renderer reads.
`none` models the key being absent from the JSON object; usage values are
kept in their printed form. -/
structure Payload where
  citations : Option (List String)
  usage : Option (List (String × String))
  choices : Option (List Choice)
  deriving DecidableEq

/-- `Perplexity._show_usage` (lines 137-144): the lines printed.  The header
is "Tokens" in both render modes. -/
def Perplexity.show_usage (result : List (String × String)) (use_glow : Bool) : List String :=
  (if use_glow then ["# Tokens"] else [display "Tokens \n" "yellow" true "blue"])
  ++ result.map (fun kv => "- " ++ kv.1 ++ ": " ++ kv.2)
  ++ ["\n"]

/-- `Perplexity._show_citations` (lines 147-154): the lines printed. -/
def Perplexity.show_citations (result : List String) (use_glow : Bool) : List String :=
  (if use_glow then ["# Citations"] else [display "Citations \n" "yellow" true "blue"])
  ++ result.map (fun element => "- " ++ element)
  ++ ["\n"]

/-- `Perplexity._show_content` (lines 156-161): the lines printed. -/
def Perplexity.show_content (use_glow : Bool) (result : String) : List String :=
  (if use_glow then ["# Content"] else [display "Content \n" "yellow" true "blue"])
  ++ [result]

/-- The citations step of the 200 branch (lines 126-127): lines printed and
the exception, if any.  `result["citations"]` raises `KeyError` before
anything is printed when the key is absent. -/
def renderCitationsPart (setup : ApiConfigState) (use_glow : Bool) (result : Payload) :
    List String × Option PyError :=
  if setup.citations then
    match result.citations with
    | none => ([], some (.keyError "citations"))
    | some c => (Perplexity.show_citations c use_glow, none)
  else ([], none)

/-- The usage step of the 200 branch (lines 128-129). -/
def renderUsagePart (setup : ApiConfigState) (use_glow : Bool) (result : Payload) :
    List String × Option PyError :=
  if setup.usage then
    match result.usage with
    | none => ([], some (.keyError "usage"))
    | some u => (Perplexity.show_usage u use_glow, none)
  else ([], none)

/-- The content step of the 200 branch (line 130):
`result["choices"][0]["message"]["content"]` raises `KeyError` when the key
is absent and `IndexError` when the array is empty, before printing. -/
def renderContentPart (use_glow : Bool) (result : Payload) :
    List String × Option PyError :=
  match result.choices with
  | none => ([], some (.keyError "choices"))
  | some [] => ([], some .indexError)
  | some (c :: _) => (Perplexity.show_content use_glow c.message.content, none)

/-- The whole 200 branch of `get_response` (lines 124-130): the lines
printed before any exception, and the exception.  A raised step stops the
sequence; a failing step prints nothing of its own section. -/
def Perplexity.renderSuccess (setup : ApiConfigState) (use_glow : Bool) (result : Payload) :
    List String × Option PyError :=
  let s1 := renderCitationsPart setup use_glow result
  match s1.2 with
  | some e => (s1.1, some e)
  | none =>
    let s2 := renderUsagePart setup use_glow result
    match s2.2 with
    | some e => (s1.1 ++ s2.1, some e)
    | none =>
      let s3 := renderContentPart use_glow result
      (s1.1 ++ s2.1 ++ s3.1, s3.2)

/-- What the network collaborator does with the posted request: raise a
transport fault, or deliver a response with a status code and JSON payload. -/
inductive NetOutcome where
  | fault
  | response (status : Nat) (payload : Payload)

/-- Observable result of `Perplexity.get_response`: the request posted, the
stdout lines, the `logger.error` lines (visible at the default WARNING
level), and the exception that escaped, if any. -/
structure GetResponseResult where
  request : OutboundRequest
  printed : List String
  logErrors : List String
  raised : Option PyError
  deriving DecidableEq

/-- `Perplexity.get_response` (lines 104-134).  Status 200 renders the
payload; 401 prints one "Invalid api key! " line and returns normally; any
other status logs `Error: <code>` via `logger.error` and returns normally. -/
def Perplexity.get_response (setup : ApiConfigState) (use_glow : Bool) (message : String)
    (net : OutboundRequest → NetOutcome) : GetResponseResult :=
  let req := Perplexity.buildRequest setup message
  match net req with
  | .fault =>
    { request := req, printed := [], logErrors := [], raised := some .transportError }
  | .response status payload =>
    if status = 200 then
      let r := Perplexity.renderSuccess setup use_glow payload
      { request := req, printed := r.1, logErrors := [], raised := r.2 }
    else if status = 401 then
      { request := req
      , printed := [display "Invalid api key! " "red" false "black"]
      , logErrors := []
      , raised := none }
    else
      { request := req, printed := [], logErrors := ["Error: " ++ toString status], raised := none }

/-- Observable result of one invocation of `main`. `requestSent` is `none`
when `requests.post` was never reached. -/
structure RunResult where
  exitCode : Nat
  requestSent : Option OutboundRequest
  printed : List String
  logErrors : List String
  deriving DecidableEq

/-- `main` (lines 164-200), for a process started fresh (class attributes at
their declared defaults): construct the client and fetch the response; any
exception is caught by the blanket handler, logged at debug detail only, and
turned into `sys.exit(1)`.  A run with no exception exits 0. -/
def runMain (args : Args) (env : Option String) (net : OutboundRequest → NetOutcome) : RunResult :=
  let ir := Perplexity.init ApiConfigState.initial args env
  match ir.outcome with
  | .error _ =>
    { exitCode := 1, requestSent := none, printed := ir.printed, logErrors := [] }
  | .ok use_glow =>
    let gr := Perplexity.get_response ir.state use_glow args.query net
    match gr.raised with
    | some _ =>
      { exitCode := 1, requestSent := some gr.request
      , printed := ir.printed ++ gr.printed, logErrors := gr.logErrors }
    | none =>
      { exitCode := 0, requestSent := some gr.request
      , printed := ir.printed ++ gr.printed, logErrors := gr.logErrors }

/-! ### Concrete fixtures -/

/-- A fully valid argument set: valid model, non-empty explicit key. -/
def argsBase : Args :=
  { query := "What is 2+2?", verbose := false, usage := false, citations := false
  , glow := false, api_key := some "k", model := "sonar-pro" }

/-- `argsBase` with the citations flag set. -/
def argsCit : Args := { argsBase with citations := true }

/-- `argsBase` without an explicit credential. -/
def argsNoKey : Args := { argsBase with api_key := none }

/-- A second argument set with a different model and key. -/
def argsSonar : Args := { argsBase with model := "sonar", api_key := some "k2" }

/-- An argument set with a model outside the allow-list. -/
def argsNotAModel : Args := { argsBase with model := "not-a-model" }

/-- A payload with none of the three keys. -/
def payloadEmpty : Payload := { citations := none, usage := none, choices := none }

/-- A payload with only `choices[0].message.content = "4"`. -/
def payload4 : Payload :=
  { citations := none, usage := none, choices := some [{ message := { content := "4" } }] }

/-- `argsBase` with an explicit empty-string credential override. -/
def argsEmptyKey : Args := { argsBase with api_key := some "" }

/-- The request `runMain argsBase` posts. -/
def reqBase : OutboundRequest :=
  { url := "https://api.perplexity.ai/chat/completions"
  , headers :=
      [ ("accept", "application/json")
      , ("content-type", "application/json")
      , ("Authorization", "Bearer k") ]
  , model := some "sonar-pro"
  , messages :=
      [ ("system", "Be precise and concise.")
      , ("user", "What is 2+2?") ] }

/-- A configuration store with only the citations flag set. -/
def stCitW : ApiConfigState := { ApiConfigState.initial with citations := true }

/-- A payload with citations, no usage, and one choice. -/
def pCitW : Payload :=
  { citations := some ["a", "b"], usage := none
  , choices := some [{ message := { content := "x" } }] }

/-- A network that answers 401 to every request. -/
def net401 : OutboundRequest → NetOutcome := fun _ => .response 401 payloadEmpty

/-- A network that answers 200 with `payload4` (no citations, no usage). -/
def netOk : OutboundRequest → NetOutcome := fun _ => .response 200 payload4

/-! ### Helper lemmas -/

/-- A successful constructor run always stores some credential. -/
lemma init_ok_api_key (cls : ApiConfigState) (args : Args) (env : Option String) (g : Bool)
    (h : (Perplexity.init cls args env).outcome = Except.ok g) :
    ∃ k, (Perplexity.init cls args env).state.api_key = some k := by
  unfold Perplexity.init at h ⊢
  by_cases hv : ModelValidator.validate args.model = false
  · simp [hv] at h
  · by_cases ht : pyTruthy args.api_key = false
    · cases henv : ApiKeyValidator.get_api_key_from_system env with
      | none => simp [hv, ht, henv] at h
      | some k => exact ⟨k, by simp [hv, ht, henv]⟩
    · rw [Bool.not_eq_false] at ht
      cases hk : args.api_key with
      | none => rw [hk] at ht; simp [pyTruthy] at ht
      | some s => rw [hk] at ht; exact ⟨s, by simp [hv, hk, ht]⟩

/-- `get_response` always posts exactly the request built from the
configuration and the message. -/
lemma get_response_request (st : ApiConfigState) (g : Bool) (q : String)
    (net : OutboundRequest → NetOutcome) :
    (Perplexity.get_response st g q net).request = Perplexity.buildRequest st q := by
  cases h : net (Perplexity.buildRequest st q) with
  | fault => simp [Perplexity.get_response, h]
  | response status payload =>
    by_cases h2 : status = 200
    · simp [Perplexity.get_response, h, h2]
    · by_cases h4 : status = 401
      · simp [Perplexity.get_response, h, h2, h4]
      · simp [Perplexity.get_response, h, h2, h4]

/-- The 200 branch raises no exception exactly when all three steps pass. -/
lemma renderSuccess_snd_none (st : ApiConfigState) (g : Bool) (p : Payload) :
    (Perplexity.renderSuccess st g p).2 = none ↔
      (renderCitationsPart st g p).2 = none ∧ (renderUsagePart st g p).2 = none ∧
      (renderContentPart g p).2 = none := by
  unfold Perplexity.renderSuccess
  cases h1 : (renderCitationsPart st g p).2 with
  | some e => simp [h1]
  | none =>
    cases h2 : (renderUsagePart st g p).2 with
    | some e => simp [h1, h2]
    | none => simp [h1, h2]

/-- When a requested key is absent (or the choices array is missing or
empty), the 200 branch raises. -/
lemma renderSuccess_raises (st : ApiConfigState) (g : Bool) (p : Payload)
    (h : (st.citations = true ∧ p.citations = none) ∨
         (st.usage = true ∧ p.usage = none) ∨
         p.choices = none ∨ p.choices = some []) :
    ((Perplexity.renderSuccess st g p).2).isSome = true := by
  rw [Option.isSome_iff_ne_none]
  intro hnone
  rw [renderSuccess_snd_none] at hnone
  obtain ⟨hc, hu, hch⟩ := hnone
  rcases h with ⟨h1, h2⟩ | ⟨h1, h2⟩ | h1 | h1
  · simp [renderCitationsPart, h1, h2] at hc
  · simp [renderUsagePart, h1, h2] at hu
  · simp [renderContentPart, h1] at hch
  · simp [renderContentPart, h1] at hch

/-! ### Claim theorems -/

/-- Claim C1, counterexample: with a valid configuration and a server that
answers 401 (Unauthorized) the process prints the "Invalid api key! " notice
but exits 0, contradicting "on every terminal failure (... Unauthorized
401 ...) the process exits non-zero". -/
theorem unauthorized_exits_zero :
    (runMain argsBase none net401).exitCode = 0 ∧
    (runMain argsBase none net401).printed = [display "Invalid api key! " "red" false "black"] := by
  decide

/-- Claim C2, counterexample: with `showCitations` requested and a 200
response whose payload has no citations list (content is present), the
process exits 1 with nothing printed and nothing logged at default
verbosity — the `KeyError` is an uncaught fault swallowed by the blanket
handler, not an explicit reported error. -/
theorem missing_citations_no_error_report :
    (runMain argsCit none netOk).exitCode = 1 ∧
    (runMain argsCit none netOk).printed = [] ∧
    (runMain argsCit none netOk).logErrors = [] ∧
    (runMain argsCit none netOk).requestSent.isSome = true := by
  decide

/-- Claim C3, counterexample: the configuration store is the `ApiConfig`
class object, shared by all client instances; constructing a second client
overwrites the configuration the first client reads (its `model` changes
from "sonar-pro" to "sonar"). -/
theorem second_client_overwrites_config :
    ((Perplexity.init ApiConfigState.initial argsBase none).state).model = some "sonar-pro" ∧
    ((Perplexity.init (Perplexity.init ApiConfigState.initial argsBase none).state
        argsSonar none).state).model = some "sonar" ∧
    ¬ ((Perplexity.init (Perplexity.init ApiConfigState.initial argsBase none).state
        argsSonar none).state = (Perplexity.init ApiConfigState.initial argsBase none).state) := by
  decide

/-- Claim C4, counterexample: with no override and PERPLEXITY_API_KEY set to
the empty string, construction succeeds and stores the empty credential —
the code checks only `is None`, so an empty environment value does not raise
`ApiKeyNotFoundException`, contradicting "absent or its value is the empty
string". -/
theorem empty_env_value_accepted :
    (Perplexity.init ApiConfigState.initial argsNoKey (some "")).outcome = Except.ok false ∧
    (Perplexity.init ApiConfigState.initial argsNoKey (some "")).state.api_key = some "" := by
  decide

/-- Claim C6, counterexample: the usage section is titled "Tokens", not
"Usage": with `showUsage` set and a usage mapping present, the rendered
lines contain the header `# Tokens` and no "# Usage" header. -/
theorem usage_section_titled_tokens :
    Perplexity.renderSuccess
        { ApiConfigState.initial with usage := true, api_key := some "k", model := some "sonar-pro" }
        true
        { citations := none, usage := some [("total_tokens", "5")]
        , choices := some [{ message := { content := "x" } }] } =
      (["# Tokens", "- total_tokens: 5", "\n", "# Content", "x"], none) ∧
    ¬ ("# Usage" ∈ (Perplexity.renderSuccess
        { ApiConfigState.initial with usage := true, api_key := some "k", model := some "sonar-pro" }
        true
        { citations := none, usage := some [("total_tokens", "5")]
        , choices := some [{ message := { content := "x" } }] }).1) := by
  decide

/-- Claim C1 (amended): the process exit code is 0 iff the client was
constructed successfully and `get_response` raised no exception — i.e. a
rendered 200 response, but also an Unauthorized 401 or any other non-200
status, exit 0; non-zero occurs exactly on invalid model, missing
credential, transport fault, or a missing payload field during rendering. -/
theorem exit_code_zero_iff (args : Args) (env : Option String)
    (net : OutboundRequest → NetOutcome) :
    (runMain args env net).exitCode = 0 ↔
      ∃ g, (Perplexity.init ApiConfigState.initial args env).outcome = Except.ok g ∧
        (Perplexity.get_response (Perplexity.init ApiConfigState.initial args env).state
          g args.query net).raised = none := by
  cases ho : (Perplexity.init ApiConfigState.initial args env).outcome with
  | error e => simp [runMain, ho]
  | ok g =>
    cases hr : (Perplexity.get_response (Perplexity.init ApiConfigState.initial args env).state
        g args.query net).raised with
    | some e => simp [runMain, ho, hr]
    | none => simp [runMain, ho, hr]

/-- Claim C2 (amended): for every 200 response whose payload lacks a field
the renderer needs (citations requested but absent, usage requested but
absent, or choices empty or missing), the process exits 1 via the uncaught
`KeyError`/`IndexError` swallowed by the orchestration boundary, and no
error line is logged at default verbosity. -/
theorem missing_field_aborts_silently (args : Args) (env : Option String)
    (net : OutboundRequest → NetOutcome) (g : Bool) (p : Payload)
    (hinit : (Perplexity.init ApiConfigState.initial args env).outcome = Except.ok g)
    (hnet : net (Perplexity.buildRequest (Perplexity.init ApiConfigState.initial args env).state
        args.query) = .response 200 p)
    (hmiss : ((Perplexity.init ApiConfigState.initial args env).state.citations = true ∧
        p.citations = none) ∨
      ((Perplexity.init ApiConfigState.initial args env).state.usage = true ∧ p.usage = none) ∨
      p.choices = none ∨ p.choices = some []) :
    (runMain args env net).exitCode = 1 ∧ (runMain args env net).logErrors = [] := by
  have hgr : Perplexity.get_response (Perplexity.init ApiConfigState.initial args env).state
      g args.query net =
      { request := Perplexity.buildRequest
          (Perplexity.init ApiConfigState.initial args env).state args.query
      , printed := (Perplexity.renderSuccess
          (Perplexity.init ApiConfigState.initial args env).state g p).1
      , logErrors := []
      , raised := (Perplexity.renderSuccess
          (Perplexity.init ApiConfigState.initial args env).state g p).2 } := by
    simp [Perplexity.get_response, hnet]
  have hraised := renderSuccess_raises (Perplexity.init ApiConfigState.initial args env).state
    g p hmiss
  cases hr : (Perplexity.renderSuccess (Perplexity.init ApiConfigState.initial args env).state
      g p).2 with
  | none => rw [hr] at hraised; simp at hraised
  | some e =>
    rw [hr] at hgr
    simp [runMain, hinit, hgr]

/-- Claim C2, witness: the amended theorem at the concrete counterexample
input (citations requested, 200 payload with content but no citations). -/
theorem missing_field_aborts_silently_witness :
    (runMain argsCit none netOk).exitCode = 1 ∧ (runMain argsCit none netOk).logErrors = [] :=
  missing_field_aborts_silently argsCit none netOk false payload4 (by decide) rfl
    (Or.inl (by decide))

/-- Claim C4 (amended): with no truthy override and a valid model,
construction fails with `ApiKeyNotFoundException` iff PERPLEXITY_API_KEY is
absent from the environment (an empty-string value is accepted as the
credential), and on that failure no network call is made. -/
theorem credential_missing_iff_env_absent (args : Args) (env : Option String)
    (net : OutboundRequest → NetOutcome)
    (hk : pyTruthy args.api_key = false)
    (hm : ModelValidator.validate args.model = true) :
    ((Perplexity.init ApiConfigState.initial args env).outcome =
        Except.error PyError.apiKeyNotFound ↔ env = none) ∧
    (env = none → (runMain args env net).requestSent = none) := by
  constructor
  · cases env with
    | none => simp [Perplexity.init, hm, hk, ApiKeyValidator.get_api_key_from_system]
    | some k => simp [Perplexity.init, hm, hk, ApiKeyValidator.get_api_key_from_system]
  · intro he
    subst he
    simp [runMain, Perplexity.init, hm, hk, ApiKeyValidator.get_api_key_from_system]

/-- Claim C4, witness: the amended theorem at a concrete input (no override,
environment variable unset). -/
theorem credential_missing_iff_env_absent_witness :
    ((Perplexity.init ApiConfigState.initial argsNoKey none).outcome =
        Except.error PyError.apiKeyNotFound ↔ (none : Option String) = none) ∧
    ((none : Option String) = none → (runMain argsNoKey none netOk).requestSent = none) :=
  credential_missing_iff_env_absent argsNoKey none netOk (by decide) (by decide)

/-- Claim C3 (amended): a successful constructor run determines the whole
configuration from the CLI arguments and the environment alone — the prior
contents of the shared class store survive only in the never-assigned
`api_url` — and returns `args.glow` as the instance's render mode. -/
theorem init_state_determined_by_args (s : ApiConfigState) (args : Args) (env : Option String)
    (g : Bool) (h : (Perplexity.init s args env).outcome = Except.ok g) :
    (Perplexity.init s args env).state =
      { api_url := s.api_url
      , api_key := if pyTruthy args.api_key then args.api_key else env
      , usage := args.usage
      , citations := args.citations
      , model := some args.model } ∧ g = args.glow := by
  by_cases hv : ModelValidator.validate args.model = false
  · simp [Perplexity.init, hv] at h
  · by_cases ht : pyTruthy args.api_key = false
    · cases henv : env with
      | none =>
        simp [Perplexity.init, hv, ht, ApiKeyValidator.get_api_key_from_system, henv] at h
      | some k =>
        simp [Perplexity.init, hv, ht, ApiKeyValidator.get_api_key_from_system, henv] at h ⊢
        exact h.symm
    · rw [Bool.not_eq_false] at ht
      simp [Perplexity.init, hv, ht] at h ⊢
      exact h.symm

/-- Claim C3, witness: the amended theorem at a concrete input (fresh class
store, valid model, explicit key). -/
theorem init_state_determined_by_args_witness :
    (Perplexity.init ApiConfigState.initial argsBase none).state =
      { api_url := ApiConfigState.initial.api_url
      , api_key := if pyTruthy argsBase.api_key then argsBase.api_key else none
      , usage := argsBase.usage
      , citations := argsBase.citations
      , model := some argsBase.model } ∧ false = argsBase.glow :=
  init_state_determined_by_args ApiConfigState.initial argsBase none false (by decide)

/-- Claim C5: every request the program posts carries exactly the three
headers `accept: application/json`, `content-type: application/json`,
`Authorization: Bearer <resolved key>`, and exactly two messages in order —
the fixed system instruction followed by the user's query verbatim. -/
theorem request_headers_and_messages (args : Args) (env : Option String)
    (net : OutboundRequest → NetOutcome) (req : OutboundRequest)
    (h : (runMain args env net).requestSent = some req) :
    ∃ k, (Perplexity.init ApiConfigState.initial args env).state.api_key = some k ∧
      req.headers =
        [ ("accept", "application/json")
        , ("content-type", "application/json")
        , ("Authorization", "Bearer " ++ k) ] ∧
      req.messages = [("system", "Be precise and concise."), ("user", args.query)] := by
  cases ho : (Perplexity.init ApiConfigState.initial args env).outcome with
  | error e => simp [runMain, ho] at h
  | ok g =>
    have hreq : req = Perplexity.buildRequest
        (Perplexity.init ApiConfigState.initial args env).state args.query := by
      cases hr : (Perplexity.get_response (Perplexity.init ApiConfigState.initial args env).state
          g args.query net).raised with
      | some e =>
        simp [runMain, ho, hr] at h
        rw [← h, get_response_request]
      | none =>
        simp [runMain, ho, hr] at h
        rw [← h, get_response_request]
    obtain ⟨k, hk⟩ := init_ok_api_key _ _ _ _ ho
    refine ⟨k, hk, ?_, ?_⟩
    · rw [hreq]; simp [Perplexity.buildRequest, hk, pyStrOpt]
    · rw [hreq]; simp [Perplexity.buildRequest]

/-- Claim C5, witness: the theorem at a concrete run (valid model, explicit
key "k", query "What is 2+2?"). -/
theorem request_headers_and_messages_witness :
    ∃ k, (Perplexity.init ApiConfigState.initial argsBase none).state.api_key = some k ∧
      reqBase.headers =
        [ ("accept", "application/json")
        , ("content-type", "application/json")
        , ("Authorization", "Bearer " ++ k) ] ∧
      reqBase.messages = [("system", "Be precise and concise."), ("user", argsBase.query)] :=
  request_headers_and_messages argsBase none netOk reqBase (by decide)

/-- Claim C6 (amended): for every 200 response in which each requested
section's key is present and the choices array is non-empty, the renderer
emits, in fixed order, the Citations section (bulleted lines, iff
`showCitations`), then the usage section — titled "Tokens", not "Usage" —
(bulleted `key: value` lines, iff `showUsage`), then the Content section. -/
theorem render_success_sections_order (st : ApiConfigState) (g : Bool) (p : Payload)
    (c : List String) (u : List (String × String)) (ch : Choice) (tl : List Choice)
    (hc : st.citations = true → p.citations = some c)
    (hu : st.usage = true → p.usage = some u)
    (hch : p.choices = some (ch :: tl)) :
    Perplexity.renderSuccess st g p =
      ((if st.citations then Perplexity.show_citations c g else []) ++
       (if st.usage then Perplexity.show_usage u g else []) ++
       Perplexity.show_content g ch.message.content, none) := by
  by_cases h1 : st.citations = true
  · by_cases h2 : st.usage = true
    · simp [Perplexity.renderSuccess, renderCitationsPart, renderUsagePart, renderContentPart,
        h1, h2, hc h1, hu h2, hch]
    · simp [Perplexity.renderSuccess, renderCitationsPart, renderUsagePart, renderContentPart,
        h1, h2, hc h1, hch]
  · by_cases h2 : st.usage = true
    · simp [Perplexity.renderSuccess, renderCitationsPart, renderUsagePart, renderContentPart,
        h1, h2, hu h2, hch]
    · simp [Perplexity.renderSuccess, renderCitationsPart, renderUsagePart, renderContentPart,
        h1, h2, hch]

/-- Claim C6, witness: the amended theorem at a concrete input (citations
requested and present, no usage, one choice). -/
theorem render_success_sections_order_witness :
    Perplexity.renderSuccess stCitW false pCitW =
      ((if stCitW.citations then Perplexity.show_citations ["a", "b"] false else []) ++
       (if stCitW.usage then Perplexity.show_usage [] false else []) ++
       Perplexity.show_content false "x", none) :=
  render_success_sections_order stCitW false pCitW ["a", "b"] []
    { message := { content := "x" } } [] (by decide) (by decide) rfl

/-- Citations step: the raised exception does not depend on the render mode. -/
lemma renderCitationsPart_snd_glow (st : ApiConfigState) (g g' : Bool) (p : Payload) :
    (renderCitationsPart st g p).2 = (renderCitationsPart st g' p).2 := by
  unfold renderCitationsPart
  by_cases h : st.citations = true
  · cases p.citations <;> simp [h]
  · simp [h]

/-- Usage step: the raised exception does not depend on the render mode. -/
lemma renderUsagePart_snd_glow (st : ApiConfigState) (g g' : Bool) (p : Payload) :
    (renderUsagePart st g p).2 = (renderUsagePart st g' p).2 := by
  unfold renderUsagePart
  by_cases h : st.usage = true
  · cases p.usage <;> simp [h]
  · simp [h]

/-- Content step: the raised exception does not depend on the render mode. -/
lemma renderContentPart_snd_glow (g g' : Bool) (p : Payload) :
    (renderContentPart g p).2 = (renderContentPart g' p).2 := by
  unfold renderContentPart
  rcases p.choices with _ | (_ | ⟨c, tl⟩) <;> simp

/-- The 200 branch raises the same exception in both render modes. -/
lemma renderSuccess_snd_glow (st : ApiConfigState) (g g' : Bool) (p : Payload) :
    (Perplexity.renderSuccess st g p).2 = (Perplexity.renderSuccess st g' p).2 := by
  unfold Perplexity.renderSuccess
  cases h1 : (renderCitationsPart st g p).2 with
  | some e =>
    have h1' : (renderCitationsPart st g' p).2 = some e := by
      rw [← renderCitationsPart_snd_glow st g g' p, h1]
    simp [h1, h1']
  | none =>
    have h1' : (renderCitationsPart st g' p).2 = none := by
      rw [← renderCitationsPart_snd_glow st g g' p, h1]
    cases h2 : (renderUsagePart st g p).2 with
    | some e =>
      have h2' : (renderUsagePart st g' p).2 = some e := by
        rw [← renderUsagePart_snd_glow st g g' p, h2]
      simp [h1, h1', h2, h2']
    | none =>
      have h2' : (renderUsagePart st g' p).2 = none := by
        rw [← renderUsagePart_snd_glow st g g' p, h2]
      simp [h1, h1', h2, h2', renderContentPart_snd_glow g g' p]

/-- Claim C7: rendering is mode-invariant on data — for each section the
lines after the header are identical between Markdown (glow) and Plain
modes, the heads are exactly the two header decorations, and the 200 branch
raises the same exception in both modes. -/
theorem render_mode_invariant (c : List String) (u : List (String × String)) (s : String)
    (st : ApiConfigState) (p : Payload) :
    List.drop 1 (Perplexity.show_citations c true) =
      List.drop 1 (Perplexity.show_citations c false) ∧
    List.drop 1 (Perplexity.show_usage u true) = List.drop 1 (Perplexity.show_usage u false) ∧
    List.drop 1 (Perplexity.show_content true s) =
      List.drop 1 (Perplexity.show_content false s) ∧
    List.head? (Perplexity.show_citations c true) = some "# Citations" ∧
    List.head? (Perplexity.show_citations c false) =
      some (display "Citations \n" "yellow" true "blue") ∧
    List.head? (Perplexity.show_usage u true) = some "# Tokens" ∧
    List.head? (Perplexity.show_usage u false) =
      some (display "Tokens \n" "yellow" true "blue") ∧
    List.head? (Perplexity.show_content true s) = some "# Content" ∧
    List.head? (Perplexity.show_content false s) =
      some (display "Content \n" "yellow" true "blue") ∧
    (Perplexity.renderSuccess st true p).2 = (Perplexity.renderSuccess st false p).2 := by
  refine ⟨?_, ?_, ?_, ?_, ?_, ?_, ?_, ?_, ?_, renderSuccess_snd_glow st true false p⟩ <;>
    simp [Perplexity.show_citations, Perplexity.show_usage, Perplexity.show_content]

/-- Claim C8: `ModelValidator.validate` accepts exactly the four allow-listed
model names, and for any other model the constructor raises
`InvalidSelectedModelException` whose message names the rejected model and
lists the four allowed models, and no network call is made. -/
theorem model_allowlist_validation (m : String) (args : Args) (env : Option String)
    (net : OutboundRequest → NetOutcome) (hm : args.model = m) :
    (ModelValidator.validate m = true ↔
      (m = "sonar-reasoning-pro" ∨ m = "sonar-reasoning" ∨ m = "sonar-pro" ∨ m = "sonar")) ∧
    (ModelValidator.validate m = false →
      (Perplexity.init ApiConfigState.initial args env).outcome =
        Except.error (PyError.invalidSelectedModel
          ("Invalid model: " ++ m ++ "\n" ++ "Available models: " ++
            pyListRepr ModelValidator.get_AVAILABLE_MODELS)) ∧
      (runMain args env net).requestSent = none) := by
  subst hm
  constructor
  · simp [ModelValidator.validate, List.contains, List.elem_iff, AVAILABLE_MODELS]
  · intro hinv
    constructor
    · simp [Perplexity.init, hinv]
    · simp [runMain, Perplexity.init, hinv]

/-- Claim C8, witness: the theorem at the concrete rejected model
"not-a-model". -/
theorem model_allowlist_validation_witness :
    (ModelValidator.validate "not-a-model" = true ↔
      ("not-a-model" = "sonar-reasoning-pro" ∨ "not-a-model" = "sonar-reasoning" ∨
       "not-a-model" = "sonar-pro" ∨ "not-a-model" = "sonar")) ∧
    (ModelValidator.validate "not-a-model" = false →
      (Perplexity.init ApiConfigState.initial argsNotAModel none).outcome =
        Except.error (PyError.invalidSelectedModel
          ("Invalid model: " ++ "not-a-model" ++ "\n" ++ "Available models: " ++
            pyListRepr ModelValidator.get_AVAILABLE_MODELS)) ∧
      (runMain argsNotAModel none netOk).requestSent = none) :=
  model_allowlist_validation "not-a-model" argsNotAModel none netOk rfl

/-- Claim C9: a non-empty explicit credential is stored unchanged and the
environment is never consulted — the constructor's result is identical for
any two environment states, and on a valid model the stored key is exactly
the override. -/
theorem explicit_credential_wins (args : Args) (k : String) (env env' : Option String)
    (hk : args.api_key = some k) (hne : ¬ (k = "")) :
    Perplexity.init ApiConfigState.initial args env =
      Perplexity.init ApiConfigState.initial args env' ∧
    (ModelValidator.validate args.model = true →
      (Perplexity.init ApiConfigState.initial args env).state.api_key = some k) := by
  have ht : pyTruthy args.api_key = true := by simp [pyTruthy, hk, hne]
  constructor
  · by_cases hv : ModelValidator.validate args.model = false
    · simp [Perplexity.init, hv]
    · simp [Perplexity.init, hv, ht]
  · intro hv
    rw [hk] at ht
    simp [Perplexity.init, hv, hk, ht]

/-- Claim C9, witness: the theorem at a concrete input — override "k",
environments `some "ENVKEY"` versus unset. -/
theorem explicit_credential_wins_witness :
    Perplexity.init ApiConfigState.initial argsBase (some "ENVKEY") =
      Perplexity.init ApiConfigState.initial argsBase none ∧
    (ModelValidator.validate argsBase.model = true →
      (Perplexity.init ApiConfigState.initial argsBase (some "ENVKEY")).state.api_key =
        some "k") :=
  explicit_credential_wins argsBase "k" (some "ENVKEY") none rfl (by decide)

/-- Claim C10: an explicit empty-string credential override behaves exactly
as if no override had been given — construction and the whole run coincide
with the no-override run, falling back to the environment, and with the
environment unset the constructor raises `ApiKeyNotFoundException`. -/
theorem empty_override_falls_back (args : Args) (env : Option String)
    (net : OutboundRequest → NetOutcome) (h : args.api_key = some "") :
    Perplexity.init ApiConfigState.initial args env =
      Perplexity.init ApiConfigState.initial { args with api_key := none } env ∧
    runMain args env net = runMain { args with api_key := none } env net ∧
    (ModelValidator.validate args.model = true → env = none →
      (Perplexity.init ApiConfigState.initial args env).outcome =
        Except.error PyError.apiKeyNotFound) := by
  have hinit : Perplexity.init ApiConfigState.initial args env =
      Perplexity.init ApiConfigState.initial { args with api_key := none } env := by
    by_cases hv : ModelValidator.validate args.model = false
    · simp [Perplexity.init, hv]
    · simp [Perplexity.init, hv, h, pyTruthy]
  refine ⟨hinit, ?_, ?_⟩
  · unfold runMain
    rw [hinit]
  · intro hv he
    subst he
    simp [Perplexity.init, hv, h, pyTruthy, ApiKeyValidator.get_api_key_from_system]

/-- Claim C10, witness: the theorem at a concrete input (empty override,
environment unset). -/
theorem empty_override_falls_back_witness :
    Perplexity.init ApiConfigState.initial argsEmptyKey none =
      Perplexity.init ApiConfigState.initial { argsEmptyKey with api_key := none } none ∧
    runMain argsEmptyKey none netOk = runMain { argsEmptyKey with api_key := none } none netOk ∧
    (ModelValidator.validate argsEmptyKey.model = true → (none : Option String) = none →
      (Perplexity.init ApiConfigState.initial argsEmptyKey none).outcome =
        Except.error PyError.apiKeyNotFound) :=
  empty_override_falls_back argsEmptyKey none netOk rfl

end PerplexityCli
